import Mathlib

/-!
Shallow embedding of the voice-biometric verification core of
`src/src/index.js` (Redessip voice-biometric service).

External state (MongoDB collections, Redis keys, Twilio side effects) is
made explicit as a record `St`; ambient inputs that the source draws from
the environment (the wall-clock hour, fresh UUIDs, random codes, the
opaque matcher confidence, success of the outbound telephony call) are
passed as explicit arguments.  The endpoint handlers become pure
functions from a state and those inputs to a result and a new state.
-/

namespace VoiceBiometric

/-- Embeds `calculateRiskScore(transactionType, amount)` from the source.
The source reads the current wall-clock hour via `new Date().getHours()`;
the embedding passes that ambient hour explicitly as the last argument. -/
def calculateRiskScore (transactionType : String) (amount : Int) (hour : Nat) : Nat :=
  ((if amount > 5000 then 30 else 0) +
   (if amount > 10000 then 20 else 0) +
   (if transactionType = "INTERNATIONAL" then 25 else 0) +
   (if transactionType = "CRYPTO" then 35 else 0) +
   (if hour < 6 ∨ hour > 22 then 15 else 0)).min 100

/-- Embeds the inline risk-level banding of the `/biometric/initiate`
response: `riskScore > 70 ? HIGH : riskScore > 40 ? MEDIUM : LOW`. -/
def riskBand (riskScore : Nat) : String :=
  if riskScore > 70 then "HIGH" else if riskScore > 40 then "MEDIUM" else "LOW"

/-- One document of the `VoiceProfile` MongoDB collection. -/
structure VoiceProfile where
  userId : String
  phoneNumber : String
  voicePrint : String
  lastVerification : Option Nat
  verificationAttempts : Nat
deriving Repr, DecidableEq

/-- The `type` field written into the Redis session payload. -/
inductive SessionType where
  | ENROLLMENT
  | VERIFICATION
deriving Repr, DecidableEq

/-- The JSON payload stored under `session:<sessionId>` in Redis.
Risk score and transaction context are present only for VERIFICATION. -/
structure Session where
  phoneNumber : String
  callSid : String
  type : SessionType
  riskScore : Option Nat
  transactionType : Option String
  amount : Option Int
deriving Repr, DecidableEq

/-- One document of the `AuditLog` MongoDB collection. -/
structure AuditLog where
  sessionId : String
  phoneNumber : String
  action : String
  result : String
  riskScore : Option Nat
deriving Repr, DecidableEq

/-- Observable invocations of external collaborators, recorded in order:
`client.calls.create`, `redis.setex` of a session, `client.messages.create`. -/
inductive ExtEvent where
  | placeCall (dest : String)
  | sessionWrite (sessionId : String)
  | sendSms (dest : String)
deriving Repr, DecidableEq

/-- The external state the handlers read and write: the two MongoDB
collections, the four families of Redis keys, and the event trace of
collaborator invocations. -/
structure St where
  profiles : List VoiceProfile
  sessions : List (String × Session)
  challenges : List (String × Nat)
  confirmCodes : List (String × Nat)
  blocked : List (String × Bool)
  audit : List AuditLog
  events : List ExtEvent
deriving Repr, DecidableEq

/-- Redis `get` on a keyed store; a later `setex` of the same key shadows
an earlier one, so writes are modelled by prepending. -/
def kvLookup {α : Type} : List (String × α) → String → Option α
  | [], _ => none
  | (k, v) :: rest, key => if k = key then some v else kvLookup rest key

/-- `VoiceProfile.findOne({ phoneNumber })`: first document matching the
phone number. -/
def findProfile : List VoiceProfile → String → Option VoiceProfile
  | [], _ => none
  | p :: rest, phone =>
      if p.phoneNumber = phone then some p else findProfile rest phone

/-- Mongoose `document.save()` on a fetched document: replaces the stored
document with the same identity (`userId` stands in for the Mongo id). -/
def saveProfile : List VoiceProfile → VoiceProfile → List VoiceProfile
  | [], p => [p]
  | q :: rest, p =>
      if q.userId = p.userId then p :: rest else q :: saveProfile rest p

/-- Result of `POST /biometric/initiate` as seen by the HTTP caller. -/
inductive InitiateResult where
  | enrollment (sessionId : String)
  | verification (sessionId : String) (riskLevel : String)
  | systemError
deriving Repr, DecidableEq

/-- Embeds `POST /biometric/initiate`.  `sessionId` is the fresh UUID,
`callSid` the id Twilio returns, `hour` the ambient clock hour, and
`callOk` whether `client.calls.create` succeeds (when it throws, the
catch in the handler returns a generic 500 and nothing was written). -/
def initiate (st : St) (phoneNumber transactionType : String) (amount : Int)
    (sessionId callSid : String) (hour : Nat) (callOk : Bool) :
    InitiateResult × St :=
  match findProfile st.profiles phoneNumber with
  | none =>
      let st1 : St := { st with events := st.events ++ [ExtEvent.placeCall phoneNumber] }
      if callOk then
        let sess : Session :=
          { phoneNumber := phoneNumber, callSid := callSid,
            type := SessionType.ENROLLMENT, riskScore := none,
            transactionType := none, amount := none }
        let st2 : St := { st1 with
          sessions := (sessionId, sess) :: st1.sessions,
          events := st1.events ++ [ExtEvent.sessionWrite sessionId] }
        (InitiateResult.enrollment sessionId, st2)
      else
        (InitiateResult.systemError, st1)
  | some _ =>
      let score := calculateRiskScore transactionType amount hour
      let st1 : St := { st with events := st.events ++ [ExtEvent.placeCall phoneNumber] }
      if callOk then
        let sess : Session :=
          { phoneNumber := phoneNumber, callSid := callSid,
            type := SessionType.VERIFICATION, riskScore := some score,
            transactionType := some transactionType, amount := some amount }
        let st2 : St := { st1 with
          sessions := (sessionId, sess) :: st1.sessions,
          events := st1.events ++ [ExtEvent.sessionWrite sessionId] }
        (InitiateResult.verification sessionId (riskBand score), st2)
      else
        (InitiateResult.systemError, st1)

/-- Result of `POST /biometric/process-enrollment/:sessionId`. -/
inductive EnrollResult where
  | success (confirmationCode : Nat)
  | error
deriving Repr, DecidableEq

/-- Embeds `POST /biometric/process-enrollment/:sessionId`.  `newUserId`
is the fresh UUID, `voicePrint` the output of the opaque template step,
`confirmationCode` the random 6-digit code.  A missing session makes
`JSON.parse(null).phoneNumber` throw, which the catch turns into an
apology with no state change.  The session key is not deleted. -/
def completeEnrollment (st : St) (sessionId newUserId voicePrint : String)
    (confirmationCode : Nat) : EnrollResult × St :=
  match kvLookup st.sessions sessionId with
  | none => (EnrollResult.error, st)
  | some sess =>
      let profile : VoiceProfile :=
        { userId := newUserId, phoneNumber := sess.phoneNumber,
          voicePrint := voicePrint, lastVerification := none,
          verificationAttempts := 0 }
      let st1 : St := { st with
        profiles := st.profiles ++ [profile],
        confirmCodes := (sess.phoneNumber, confirmationCode) :: st.confirmCodes,
        audit := st.audit ++ [{ sessionId := sessionId,
                                phoneNumber := sess.phoneNumber,
                                action := "ENROLLMENT_SUCCESS",
                                result := "SUCCESS", riskScore := none }] }
      (EnrollResult.success confirmationCode, st1)

/-- Embeds the challenge issuance of `POST /biometric/verify/:sessionId`:
the random 4-digit challenge is stored under `challenge:<sessionId>`. -/
def issueChallenge (st : St) (sessionId : String) (challenge : Nat) : St :=
  { st with challenges := (sessionId, challenge) :: st.challenges }

/-- Terminal outcome of `POST /biometric/process-verification/:sessionId`. -/
inductive VerifyOutcome where
  | SUCCESS
  | FAILURE
  | LOCKED_OUT
  | ERROR
deriving Repr, DecidableEq

/-- Embeds `POST /biometric/process-verification/:sessionId`.
`confidence` is the opaque matcher score in [0,1]; `now` the ambient
time written into `lastVerification`.  A missing session or profile
makes the handler throw into its catch with no state change. -/
def completeVerification (st : St) (sessionId : String) (confidence : ℚ)
    (now : Nat) : VerifyOutcome × St :=
  match kvLookup st.sessions sessionId with
  | none => (VerifyOutcome.ERROR, st)
  | some sess =>
      match findProfile st.profiles sess.phoneNumber with
      | none => (VerifyOutcome.ERROR, st)
      | some profile =>
          if confidence > 85 / 100 then
            let p1 : VoiceProfile := { profile with
              lastVerification := some now, verificationAttempts := 0 }
            let st1 : St := { st with
              profiles := saveProfile st.profiles p1,
              events := st.events ++ [ExtEvent.sendSms sess.phoneNumber],
              audit := st.audit ++ [{ sessionId := sessionId,
                                      phoneNumber := sess.phoneNumber,
                                      action := "VERIFICATION_SUCCESS",
                                      result := "SUCCESS",
                                      riskScore := sess.riskScore }] }
            (VerifyOutcome.SUCCESS, st1)
          else
            let p1 : VoiceProfile := { profile with
              verificationAttempts := profile.verificationAttempts + 1 }
            let st1 : St := { st with profiles := saveProfile st.profiles p1 }
            if p1.verificationAttempts ≥ 3 then
              let st2 : St :=
                { st1 with blocked := (sess.phoneNumber, true) :: st1.blocked }
              (VerifyOutcome.LOCKED_OUT, st2)
            else
              (VerifyOutcome.FAILURE, st1)

/-! Concrete fixtures used by witnesses and counterexamples. -/

/-- An enrolled profile with no recorded failures. -/
def profileP1 : VoiceProfile :=
  { userId := "u1", phoneNumber := "+51999888777", voicePrint := "vp1",
    lastVerification := none, verificationAttempts := 0 }

/-- The same profile after two consecutive failures. -/
def profileFail2 : VoiceProfile :=
  { userId := "u1", phoneNumber := "+51999888777", voicePrint := "vp1",
    lastVerification := none, verificationAttempts := 2 }

/-- The same profile after three consecutive failures (lockout already
triggered on the previous attempt). -/
def profileFail3 : VoiceProfile :=
  { userId := "u1", phoneNumber := "+51999888777", voicePrint := "vp1",
    lastVerification := none, verificationAttempts := 3 }

/-- A stored VERIFICATION session for that number. -/
def sessionS2 : Session :=
  { phoneNumber := "+51999888777", callSid := "CA2",
    type := SessionType.VERIFICATION, riskScore := some 30,
    transactionType := some "TRANSFER", amount := some 6000 }

/-- A stored ENROLLMENT session for that number. -/
def sessionE1 : Session :=
  { phoneNumber := "+51999888777", callSid := "CA1",
    type := SessionType.ENROLLMENT, riskScore := none,
    transactionType := none, amount := none }

/-- State with one enrolled profile and nothing else. -/
def stEnrolled : St :=
  { profiles := [profileP1], sessions := [], challenges := [],
    confirmCodes := [], blocked := [], audit := [], events := [] }

/-- State with one enrolled profile and an active lockout record for its
phone number. -/
def stLocked : St :=
  { profiles := [profileP1], sessions := [], challenges := [],
    confirmCodes := [("x", 0)], blocked := [("+51999888777", true)],
    audit := [], events := [] }

/-! Claim theorems. -/

/-- C1: the claim says initiate for an enrolled, actively locked-out
number returns LOCKED_OUT and places no call.  The code never reads the
`blocked:` key in `/biometric/initiate`: at this concrete input the
lockout record is live, yet the handler places the outbound call and
returns an ordinary VERIFICATION session to the caller. -/
theorem C1_locked_number_still_called :
    kvLookup stLocked.blocked "+51999888777" = some true ∧
    (initiate stLocked "+51999888777" "TRANSFER" 6000 "S9" "CA9" 12 true).1 =
      InitiateResult.verification "S9" "LOW" ∧
    ExtEvent.placeCall "+51999888777" ∈
      (initiate stLocked "+51999888777" "TRANSFER" 6000 "S9" "CA9" 12 true).2.events := by
  decide

/-- C5 (amended): calculateRiskScore is deterministic and side-effect-free
as a function of the transaction type, the amount and the ambient
wall-clock hour it reads; two invocations agreeing on all three produce
the same integer. -/
theorem C5_deterministic (t1 t2 : String) (a1 a2 : Int) (h1 h2 : Nat)
    (ht : t1 = t2) (ha : a1 = a2) (hh : h1 = h2) :
    calculateRiskScore t1 a1 h1 = calculateRiskScore t2 a2 h2 := by
  subst ht; subst ha; subst hh; rfl

/-- C5 witness: the determinism theorem applied at a concrete input. -/
theorem C5_deterministic_witness :
    calculateRiskScore "TRANSFER" 100 5 = calculateRiskScore "TRANSFER" 100 5 :=
  C5_deterministic "TRANSFER" "TRANSFER" 100 100 5 5 rfl rfl rfl

/-- C5 counterexample: the source function takes only the transaction
type and the amount and reads the hour from the clock, so two invocations
with the same caller-supplied arguments (TRANSFER, 100) run at hours 5
and 12 return different integers (15 and 0). -/
theorem C5_cex :
    calculateRiskScore "TRANSFER" 100 5 ≠ calculateRiskScore "TRANSFER" 100 12 := by
  decide

/-- C6: the risk score is always at most 100 (it is a Nat, hence at least
0); for fixed type and hour it is monotone non-decreasing in the amount;
and amount 12000 with type CRYPTO at hour 2 scores exactly 100 (capped). -/
theorem C6_riskScore_range_monotone_cap (t : String) (h : Nat) (a1 a2 : Int)
    (hle : a1 ≤ a2) :
    calculateRiskScore t a1 h ≤ 100 ∧
    calculateRiskScore t a1 h ≤ calculateRiskScore t a2 h ∧
    calculateRiskScore "CRYPTO" 12000 2 = 100 := by
  unfold calculateRiskScore
  refine ⟨?_, ?_, by decide⟩ <;> (split_ifs <;> first | decide | omega)

/-- C6 witness: the range/monotonicity theorem applied at amounts
4000 ≤ 12000 for CRYPTO at hour 2. -/
theorem C6_riskScore_witness :
    calculateRiskScore "CRYPTO" 4000 2 ≤ 100 ∧
    calculateRiskScore "CRYPTO" 4000 2 ≤ calculateRiskScore "CRYPTO" 12000 2 ∧
    calculateRiskScore "CRYPTO" 12000 2 = 100 :=
  C6_riskScore_range_monotone_cap "CRYPTO" 2 4000 12000 (by decide)

/-- C7 (amended): initiate for an enrolled number with type TRANSFER and
amount 5000 returns a VERIFICATION result with risk band LOW, and the
computed score is 0 during daytime hours (15 before 06:00 or after
22:00): 5000 is not greater than 5000, so no amount points accrue. -/
theorem C7_transfer5000_scores_low (st : St) (p : VoiceProfile) (h : Nat)
    (sid csid : String)
    (hp : findProfile st.profiles "+51999888777" = some p) :
    (initiate st "+51999888777" "TRANSFER" 5000 sid csid h true).1 =
      InitiateResult.verification sid "LOW" ∧
    calculateRiskScore "TRANSFER" 5000 h = if h < 6 ∨ h > 22 then 15 else 0 := by
  have hs : calculateRiskScore "TRANSFER" 5000 h =
      if h < 6 ∨ h > 22 then 15 else 0 := by
    by_cases hn : h < 6 ∨ h > 22 <;> simp [calculateRiskScore, hn]
  refine ⟨?_, hs⟩
  by_cases hn : h < 6 ∨ h > 22 <;> simp [initiate, hp, hs, riskBand, hn]

/-- C7 witness: the amended theorem applied to a concrete enrolled state
at hour 12. -/
theorem C7_transfer5000_witness :
    (initiate stEnrolled "+51999888777" "TRANSFER" 5000 "S2" "CA2" 12 true).1 =
      InitiateResult.verification "S2" "LOW" ∧
    calculateRiskScore "TRANSFER" 5000 12 = if 12 < 6 ∨ 12 > 22 then 15 else 0 :=
  C7_transfer5000_scores_low stEnrolled profileP1 12 "S2" "CA2" rfl

/-- C7 counterexample: at the very input named by the claim (enrolled number,
TRANSFER, 5000, daytime run) the response carries band LOW, not MEDIUM,
and the stored session risk score is 0, not 30. -/
theorem C7_cex :
    (initiate stEnrolled "+51999888777" "TRANSFER" 5000 "S2" "CA2" 12 true).1 =
      InitiateResult.verification "S2" "LOW" ∧
    (initiate stEnrolled "+51999888777" "TRANSFER" 5000 "S2" "CA2" 12 true).1 ≠
      InitiateResult.verification "S2" "MEDIUM" ∧
    kvLookup (initiate stEnrolled "+51999888777" "TRANSFER" 5000
        "S2" "CA2" 12 true).2.sessions "S2" =
      some { phoneNumber := "+51999888777", callSid := "CA2",
             type := SessionType.VERIFICATION, riskScore := some 0,
             transactionType := some "TRANSFER", amount := some 5000 } := by
  decide

/-- C9: when the outbound call placement fails, initiate returns the
generic system error and the session store is untouched (the session
write happens only after a successful call placement); on the successful
path the trace records the call placement strictly before the session
write. -/
theorem C9_no_session_before_call (st : St) (phone t : String) (a : Int)
    (sid csid : String) (h : Nat) :
    ((initiate st phone t a sid csid h false).1 = InitiateResult.systemError ∧
     (initiate st phone t a sid csid h false).2.sessions = st.sessions) ∧
    (initiate st phone t a sid csid h true).2.events =
      st.events ++ [ExtEvent.placeCall phone, ExtEvent.sessionWrite sid] := by
  cases hf : findProfile st.profiles phone <;> simp [initiate, hf]

/-! Helper lemmas about the profile store. -/

/-- A profile found by phone number is in the store and carries that
phone number. -/
lemma findProfile_eq_some {l : List VoiceProfile} {phone : String}
    {p : VoiceProfile} (h : findProfile l phone = some p) :
    p ∈ l ∧ p.phoneNumber = phone := by
  induction l with
  | nil => simp [findProfile] at h
  | cons q rest ih =>
      by_cases hq : q.phoneNumber = phone
      · have hqp : q = p := by simpa [findProfile, hq] using h
        subst hqp
        exact ⟨List.mem_cons_self _ _, hq⟩
      · have h2 : findProfile rest phone = some p := by
          simpa [findProfile, hq] using h
        exact ⟨List.mem_cons_of_mem _ (ih h2).1, (ih h2).2⟩

/-- Saving an updated document (same identity, same phone number) over a
store with unique user ids makes the lookup by that phone number return
the updated document. -/
lemma findProfile_saveProfile {l : List VoiceProfile} {p p1 : VoiceProfile}
    (hfind : findProfile l p.phoneNumber = some p)
    (hid : p1.userId = p.userId) (hph : p1.phoneNumber = p.phoneNumber)
    (hnodup : (l.map VoiceProfile.userId).Nodup) :
    findProfile (saveProfile l p1) p.phoneNumber = some p1 := by
  induction l with
  | nil => simp [findProfile] at hfind
  | cons q rest ih =>
      by_cases hq : q.phoneNumber = p.phoneNumber
      · have hqp : q = p := by simpa [findProfile, hq] using hfind
        subst hqp
        have hid2 : q.userId = p1.userId := hid.symm
        simp [saveProfile, hid2, findProfile, hph]
      · have hfind2 : findProfile rest p.phoneNumber = some p := by
          simpa [findProfile, hq] using hfind
        have hpmem : p ∈ rest := (findProfile_eq_some hfind2).1
        have hqid : ¬ q.userId = p1.userId := by
          rw [hid]
          intro he
          exact (List.nodup_cons.mp hnodup).1
            (he ▸ List.mem_map_of_mem VoiceProfile.userId hpmem)
        simp only [saveProfile, if_neg hqid, findProfile, if_neg hq]
        exact ih hfind2 (List.nodup_cons.mp hnodup).2

/-- The first component of completeVerification never depends on the
challenge store: it is never read by the handler. -/
lemma completeVerification_challenges_irrelevant (st : St)
    (c : List (String × Nat)) (sid : String) (conf : ℚ) (now : Nat) :
    (completeVerification { st with challenges := c } sid conf now).1 =
      (completeVerification st sid conf now).1 := by
  cases hs : kvLookup st.sessions sid with
  | none => simp [completeVerification, hs]
  | some sess =>
      cases hp : findProfile st.profiles sess.phoneNumber with
      | none => simp [completeVerification, hs, hp]
      | some p =>
          by_cases hc : conf > 85 / 100 <;>
            by_cases h3 : p.verificationAttempts + 1 ≥ 3 <;>
            simp [completeVerification, hs, hp, hc, h3]

/-! Remaining claim theorems. -/

/-- C2 (amended): on a failing verification (confidence at most 0.85) the
stored failure count becomes its previous value plus one, and a lockout
record is written exactly when that new count is at least 3 — so the
first lockout happens on the third consecutive failure (counts 2 and 3
observed on the second and third calls), but every further failure
writes the lockout record again. -/
theorem C2_lockout_threshold (st : St) (sid : String) (sess : Session)
    (p : VoiceProfile) (conf : ℚ) (now : Nat)
    (hsess : kvLookup st.sessions sid = some sess)
    (hp : findProfile st.profiles sess.phoneNumber = some p)
    (hconf : conf ≤ 85 / 100) :
    ((completeVerification st sid conf now).1 =
       if p.verificationAttempts + 1 ≥ 3 then VerifyOutcome.LOCKED_OUT
       else VerifyOutcome.FAILURE) ∧
    ((completeVerification st sid conf now).2.blocked =
       if p.verificationAttempts + 1 ≥ 3 then (sess.phoneNumber, true) :: st.blocked
       else st.blocked) ∧
    (completeVerification st sid conf now).2.profiles =
      saveProfile st.profiles
        { p with verificationAttempts := p.verificationAttempts + 1 } := by
  have hlt : ¬ conf > 85 / 100 := not_lt.mpr hconf
  by_cases h3 : p.verificationAttempts + 1 ≥ 3 <;>
    simp [completeVerification, hsess, hp, hlt, h3]

/-- C2 witness: the third consecutive failure (previous count 2) locks
the account out and stores count 3. -/
theorem C2_lockout_threshold_witness :
    ((completeVerification
        { profiles := [profileFail2], sessions := [("S2", sessionS2)],
          challenges := [], confirmCodes := [], blocked := [],
          audit := [], events := [] } "S2" (1 / 2) 0).1 =
       if profileFail2.verificationAttempts + 1 ≥ 3 then VerifyOutcome.LOCKED_OUT
       else VerifyOutcome.FAILURE) ∧
    ((completeVerification
        { profiles := [profileFail2], sessions := [("S2", sessionS2)],
          challenges := [], confirmCodes := [], blocked := [],
          audit := [], events := [] } "S2" (1 / 2) 0).2.blocked =
       if profileFail2.verificationAttempts + 1 ≥ 3 then
         (sessionS2.phoneNumber, true) :: []
       else []) ∧
    (completeVerification
        { profiles := [profileFail2], sessions := [("S2", sessionS2)],
          challenges := [], confirmCodes := [], blocked := [],
          audit := [], events := [] } "S2" (1 / 2) 0).2.profiles =
      saveProfile [profileFail2]
        { profileFail2 with
            verificationAttempts := profileFail2.verificationAttempts + 1 } :=
  C2_lockout_threshold _ "S2" sessionS2 profileFail2 (1 / 2) 0 rfl rfl
    (by norm_num)

/-- C2 counterexample: with the count already at 3 (lockout triggered on
the previous call), a fourth failing call writes a lockout record again —
the resulting count is 4, above 3, contradicting the claim that no
lockout record is set on failures where the count is already above 3. -/
theorem C2_cex :
    (completeVerification
        { profiles := [profileFail3], sessions := [("S4", sessionS2)],
          challenges := [], confirmCodes := [],
          blocked := [("+51999888777", true)], audit := [], events := [] }
        "S4" (1 / 2) 0).2.blocked =
      ("+51999888777", true) :: [("+51999888777", true)] ∧
    findProfile (completeVerification
        { profiles := [profileFail3], sessions := [("S4", sessionS2)],
          challenges := [], confirmCodes := [],
          blocked := [("+51999888777", true)], audit := [], events := [] }
        "S4" (1 / 2) 0).2.profiles "+51999888777" =
      some { profileFail3 with verificationAttempts := 4 } := by
  norm_num [completeVerification, kvLookup, findProfile, saveProfile,
    profileFail3, sessionS2]

/-- C3 (amended): completeEnrollment for a sessionId that is absent from
the session store (expired) fails with the generic error and leaves the
state — in particular the profile store — unchanged.  The handler never
consumes the session key, so a replay during the session TTL succeeds
again and appends a second profile with the same phone number. -/
theorem C3_expired_session_no_profile (st : St) (sid uid vp : String)
    (code : Nat) (hmiss : kvLookup st.sessions sid = none) :
    completeEnrollment st sid uid vp code = (EnrollResult.error, st) := by
  simp [completeEnrollment, hmiss]

/-- C3 witness: the amended theorem applied to a state with no stored
session. -/
theorem C3_expired_session_witness :
    completeEnrollment
        { profiles := [], sessions := [], challenges := [],
          confirmCodes := [], blocked := [], audit := [], events := [] }
        "S1" "u1" "vp1" 111111 =
      (EnrollResult.error,
        { profiles := [], sessions := [], challenges := [],
          confirmCodes := [], blocked := [], audit := [], events := [] }) :=
  C3_expired_session_no_profile _ "S1" "u1" "vp1" 111111 rfl

/-- C3 counterexample: the session is never consumed, so a second
completeEnrollment with the same sessionId during the session TTL
succeeds again and the store ends up with two profiles for the same
phone number. -/
theorem C3_cex :
    (completeEnrollment
        { profiles := [], sessions := [("S1", sessionE1)], challenges := [],
          confirmCodes := [], blocked := [], audit := [], events := [] }
        "S1" "u1" "vp1" 111111).1 = EnrollResult.success 111111 ∧
    (completeEnrollment (completeEnrollment
        { profiles := [], sessions := [("S1", sessionE1)], challenges := [],
          confirmCodes := [], blocked := [], audit := [], events := [] }
        "S1" "u1" "vp1" 111111).2 "S1" "u2" "vp2" 222222).1 =
      EnrollResult.success 222222 ∧
    ((completeEnrollment (completeEnrollment
        { profiles := [], sessions := [("S1", sessionE1)], challenges := [],
          confirmCodes := [], blocked := [], audit := [], events := [] }
        "S1" "u1" "vp1" 111111).2 "S1" "u2" "vp2" 222222).2.profiles.countP
      (fun q => q.phoneNumber == "+51999888777")) = 2 := by
  decide

/-- C4 (amended): given a stored session and profile, completeVerification
appends exactly one audit event (VERIFICATION_SUCCESS carrying the
session risk score) when the confidence exceeds 0.85, and appends no
audit event at all on the failure and lockout branches. -/
theorem C4_audit_events (st : St) (sid : String) (sess : Session)
    (p : VoiceProfile) (conf : ℚ) (now : Nat)
    (hsess : kvLookup st.sessions sid = some sess)
    (hp : findProfile st.profiles sess.phoneNumber = some p) :
    (completeVerification st sid conf now).2.audit =
      if conf > 85 / 100 then
        st.audit ++ [{ sessionId := sid, phoneNumber := sess.phoneNumber,
                       action := "VERIFICATION_SUCCESS", result := "SUCCESS",
                       riskScore := sess.riskScore }]
      else st.audit := by
  by_cases hc : conf > 85 / 100 <;>
    by_cases h3 : p.verificationAttempts + 1 ≥ 3 <;>
    simp [completeVerification, hsess, hp, hc, h3]

/-- C4 witness: the audit characterization applied at a concrete failing
input. -/
theorem C4_audit_events_witness :
    (completeVerification
        { profiles := [profileP1], sessions := [("S3", sessionS2)],
          challenges := [], confirmCodes := [], blocked := [],
          audit := [], events := [] } "S3" (1 / 2) 0).2.audit =
      if (1 : ℚ) / 2 > 85 / 100 then
        [] ++ [{ sessionId := "S3", phoneNumber := sessionS2.phoneNumber,
                 action := "VERIFICATION_SUCCESS", result := "SUCCESS",
                 riskScore := sessionS2.riskScore }]
      else [] :=
  C4_audit_events _ "S3" sessionS2 profileP1 (1 / 2) 0 rfl rfl

/-- C4 counterexample: a failing verification (confidence 0.5) returns
the FAILURE outcome yet appends no audit event — the audit trail stays
empty, contradicting the claim that every terminal outcome emits exactly
one event. -/
theorem C4_cex :
    (completeVerification
        { profiles := [profileP1], sessions := [("S3", sessionS2)],
          challenges := [], confirmCodes := [], blocked := [],
          audit := [], events := [] } "S3" (1 / 2) 0).1 =
      VerifyOutcome.FAILURE ∧
    (completeVerification
        { profiles := [profileP1], sessions := [("S3", sessionS2)],
          challenges := [], confirmCodes := [], blocked := [],
          audit := [], events := [] } "S3" (1 / 2) 0).2.audit = [] := by
  norm_num [completeVerification, kvLookup, findProfile, saveProfile,
    profileP1, sessionS2]

/-- C8: when the matcher confidence exceeds 0.85, completeVerification
returns SUCCESS, and the stored profile for the session phone number has
its failure count reset to 0 and its lastVerification timestamp set to
the current time — whatever the previous count was.  (Unique user ids,
as enforced by the schema, are assumed.) -/
theorem C8_success_resets_failures (st : St) (sid : String) (sess : Session)
    (p : VoiceProfile) (conf : ℚ) (now : Nat)
    (hsess : kvLookup st.sessions sid = some sess)
    (hp : findProfile st.profiles sess.phoneNumber = some p)
    (hnodup : (st.profiles.map VoiceProfile.userId).Nodup)
    (hconf : conf > 85 / 100) :
    (completeVerification st sid conf now).1 = VerifyOutcome.SUCCESS ∧
    findProfile (completeVerification st sid conf now).2.profiles
        sess.phoneNumber =
      some { p with lastVerification := some now, verificationAttempts := 0 } := by
  have hpp : p.phoneNumber = sess.phoneNumber := (findProfile_eq_some hp).2
  have hsave := @findProfile_saveProfile st.profiles p
    { p with lastVerification := some now, verificationAttempts := 0 }
    (by rw [hpp]; exact hp) rfl rfl hnodup
  constructor
  · simp [completeVerification, hsess, hp, hconf]
  · have hprof : (completeVerification st sid conf now).2.profiles =
        saveProfile st.profiles
          { p with lastVerification := some now, verificationAttempts := 0 } := by
      simp [completeVerification, hsess, hp, hconf]
    rw [hprof, ← hpp]
    exact hsave

/-- C8 witness: a profile with two recorded failures is reset to 0 by a
verification with confidence 0.9. -/
theorem C8_success_resets_witness :
    (completeVerification
        { profiles := [profileFail2], sessions := [("S2", sessionS2)],
          challenges := [], confirmCodes := [], blocked := [],
          audit := [], events := [] } "S2" (9 / 10) 7).1 =
      VerifyOutcome.SUCCESS ∧
    findProfile (completeVerification
        { profiles := [profileFail2], sessions := [("S2", sessionS2)],
          challenges := [], confirmCodes := [], blocked := [],
          audit := [], events := [] } "S2" (9 / 10) 7).2.profiles
        sessionS2.phoneNumber =
      some { profileFail2 with
               lastVerification := some 7,
               verificationAttempts := 0 } :=
  C8_success_resets_failures _ "S2" sessionS2 profileFail2 (9 / 10) 7 rfl rfl
    (by simp) (by norm_num)

/-- C10: the outcome of completeVerification is independent of the
challenge stored for the session — the handler never reads the challenge
store — so two runs on states that differ only in the issued challenge
value produce the same outcome. -/
theorem C10_challenge_noninterference (st : St) (c : List (String × Nat))
    (sid qid : String) (ch1 ch2 : Nat) (conf : ℚ) (now : Nat) :
    (completeVerification { st with challenges := c } sid conf now).1 =
      (completeVerification st sid conf now).1 ∧
    (completeVerification (issueChallenge st qid ch1) sid conf now).1 =
      (completeVerification (issueChallenge st qid ch2) sid conf now).1 := by
  constructor
  · exact completeVerification_challenges_irrelevant st c sid conf now
  · exact (completeVerification_challenges_irrelevant st
        ((qid, ch1) :: st.challenges) sid conf now).trans
      (completeVerification_challenges_irrelevant st
        ((qid, ch2) :: st.challenges) sid conf now).symm

end VoiceBiometric
